import Mathlib

/-!
# Verification of the music-player audio engine (src/main.rs)

A shallow embedding of the audio engine thread of the music player:
the transport state machine (`process_audio_cmd`), the load procedure
(`load_file`, `setup_audio_reader`, `first_supported_track`), the
decode/output loop, and the post-loop error classification
(`ignore_end_of_stream_error`, `do_verification`).

Modelling conventions:
* The external `symphonia` collaborators (format reader, decoder) are
  modelled as oracles: a `FormatReader` carries the list of results its
  successive `next_packet` calls will return, a single seek response, and
  its track table; a `Decoder` carries the list of results its successive
  `decode` calls will return.  An exhausted packet list behaves like the
  persistent end-of-stream condition a real reader reports at media end.
* `Option::unwrap` / `Result::unwrap` / `expect` are modelled explicitly:
  every function that can hit one returns an outcome that is either a
  normal value or `panicked msg` (a Rust panic kills the engine thread).
  Events already sent on the channel before a panic are still reported,
  since the controller has already received them.
* Channel sends to the UI never fail while the process is alive, so
  `ui_tx.send(..).expect(..)` is modelled as a total operation.
* `f64` arithmetic is modelled over `ℚ` (exact rationals); the `as u64`
  cast of a nonnegative value is rational floor.  The engine multiplies a
  packet timestamp by the hardcoded `time_base = 1.0 / 44100.0`, and
  `ts * (1/44100)` truncated is natural division `ts / 44100`.
* Log and panic message strings are sanitized renderings of the source
  format strings (interpolation arguments and punctuation elided).
-/

namespace MusicPlayer

/-- A source path (`std::path::PathBuf`). -/
abbrev Path := String

/-- `AudioCommand` from src/app/mod.rs (controller → engine).  The
`SetVolume` payload is an `f32` the engine never reads; it is modelled
as a rational. -/
inductive AudioCommand where
  | stop
  | play
  | pause
  | seek (seconds : Nat)
  | loadFile (path : Path)
  | select (idx : Nat)
  | setVolume (level : ℚ)
deriving DecidableEq, Repr

/-- `UiCommand` from src/app/mod.rs (engine → controller).  The variant
`currentTimestamp` is the per-packet position event; src/main.rs spells
its constructor `CurrentSeconds` while src/app/mod.rs declares it as
`CurrentTimestamp` — the two files name the same single position event. -/
inductive UiCommand where
  | audioFinished
  | totalTrackDuration (n : Nat)
  | currentTimestamp (n : Nat)
deriving DecidableEq, Repr, BEq

/-- `PlayerState` from src/main.rs. -/
inductive PlayerState where
  | unstarted
  | stopped
  | playing
  | paused
  | loadFile (path : Path)
  | seekTo (seconds : Nat)
deriving DecidableEq, Repr

/-- Log level of a `tracing` macro call. -/
inductive LogLevel where
  | info
  | warn
  | error
deriving DecidableEq, Repr, BEq

/-- One log line produced by the engine. -/
structure LogMsg where
  level : LogLevel
  msg : String
deriving DecidableEq, Repr, BEq

/-- `process_audio_cmd` (src/main.rs lines 204-235): drain at most one
pending command and map it to a transport state, unconditionally.  The
`try_recv` result is modelled as an `Option AudioCommand`; `Err(_)`
(nothing pending) leaves the state untouched and logs nothing.  The
`Select`/`SetVolume` commands fall into the unhandled `_` arm, which
only logs a warning. -/
def process_audio_cmd (cmd : Option AudioCommand) (state : PlayerState) :
    PlayerState × List LogMsg :=
  match cmd with
  | none => (state, [])
  | some c =>
    match c with
    | .seek seconds => (.seekTo seconds, [⟨.info, "Processing SEEK command"⟩])
    | .stop => (.stopped, [⟨.info, "Processing STOP command"⟩])
    | .pause => (.paused, [⟨.info, "Processing PAUSE command"⟩])
    | .play => (.playing, [⟨.info, "Processing PLAY command"⟩])
    | .loadFile path => (.loadFile path, [⟨.info, "Processing LOAD FILE command"⟩])
    | _ => (state, [⟨.warn, "Unhandled case in audio command loop"⟩])

/-- `symphonia::core::errors::Error`, restricted to the shapes the engine
distinguishes.  `ioEndOfStream` stands for `Error::IoError(err)` with
`err.kind() == UnexpectedEof` and message `"end of stream"`; `ioOther`
is any other `IoError`. -/
inductive SymError where
  | ioEndOfStream
  | ioOther
  | decodeError (msg : String)
  | seekError
  | resetRequired
  | unsupported
deriving DecidableEq, Repr

/-- `ignore_end_of_stream_error` (src/main.rs lines 384-396): the
end-of-stream I/O error is converted to `Ok`, anything else is returned
unchanged. -/
def ignore_end_of_stream_error (result : Except SymError Unit) :
    Except SymError Unit :=
  match result with
  | .error .ioEndOfStream => .ok ()
  | r => r

/-- `do_verification` (src/main.rs lines 398-409), over the
`FinalizeResult::verify_ok` field.  Returns the log lines it emits and
`Ok(i32::from(!is_ok))`. -/
def do_verification (verifyOk : Option Bool) : List LogMsg × Except SymError Int :=
  match verifyOk with
  | some isOk =>
      ([⟨.info, if isOk then "verification passed" else "verification failed"⟩],
       .ok (if isOk then 0 else 1))
  | none => ([], .ok 0)

/-- The null codec id `CODEC_TYPE_NULL`. -/
def CODEC_TYPE_NULL : Nat := 0

/-- The subset of `symphonia` `CodecParameters` the engine reads.  A
`TimeBase` is a `numer/denom` pair of integers, as in `symphonia`. -/
structure CodecParams where
  codec : Nat
  timeBase : Option (Nat × Nat)
  nFrames : Option Nat
  startTs : Nat
deriving DecidableEq, Repr

/-- A track of the probed container. -/
structure Track where
  id : Nat
  codecParams : CodecParams
deriving DecidableEq, Repr

/-- `first_supported_track` (src/main.rs lines 380-382). -/
def first_supported_track (tracks : List Track) : Option Track :=
  tracks.find? (fun t => t.codecParams.codec ≠ CODEC_TYPE_NULL)

/-- One compressed packet, tagged with its presentation timestamp and
track id. -/
structure Packet where
  ts : Nat
  trackId : Nat
deriving DecidableEq, Repr

/-- A decoded sample buffer: the engine reads only its signal spec and
its capacity. -/
structure Decoded where
  spec : Nat
  capacity : Nat
deriving DecidableEq, Repr

instance {ε α : Type} [DecidableEq ε] [DecidableEq α] : DecidableEq (Except ε α)
  | .ok a, .ok b =>
      if h : a = b then .isTrue (by rw [h]) else .isFalse (by simp [h])
  | .ok _, .error _ => .isFalse (by simp)
  | .error _, .ok _ => .isFalse (by simp)
  | .error a, .error b =>
      if h : a = b then .isTrue (by rw [h]) else .isFalse (by simp [h])

/-- Oracle model of a probed `FormatReader`: its track table, the
response its (single) `seek` call would return (`Ok required_ts` or an
error), and the successive results of `next_packet`. -/
structure FormatReader where
  tracks : List Track
  seekResponse : Except SymError Nat
  packets : List (Except SymError Packet)
deriving DecidableEq, Repr

/-- Oracle model of a `Decoder`: the successive results of its `decode`
calls and the `verify_ok` field its `finalize` will report. -/
structure Decoder where
  results : List (Except SymError Decoded)
  finalizeVerifyOk : Option Bool
deriving DecidableEq, Repr

/-- One `decode` call: pop the next oracle result.  A real decoder always
answers; an exhausted oracle answers with a (non-fatal) decode error. -/
def Decoder.decode (d : Decoder) : Except SymError Decoded × Decoder :=
  (d.results.headD (.error (.decodeError "decode oracle exhausted")),
   { d with results := d.results.drop 1 })

/-- Modelled from the spec: the Output Sink interface of §6
(`open(spec, duration_hint) -> Sink | Error`, `write`, `flush`) — the
`output` module is not under src/.  A sink remembers the spec/duration
it was opened with and the `(timestamp, buffer)` pairs written to it. -/
structure AudioOutput where
  spec : Nat
  duration : Nat
  written : List (Nat × Decoded)
deriving DecidableEq, Repr

/-- Modelled from the spec: `flush()` of §6 drains the device buffer; it
does not change the sink state the engine observes. -/
def AudioOutput.flush (o : AudioOutput) : AudioOutput := o

/-- `SeekPosition` (src/main.rs lines 238-241), constructor spelling as
in the source. -/
inductive SeekPosition where
  | time (t : ℚ)
  | timetamp (ts : Nat)
deriving DecidableEq, Repr

/-- `PlayTrackOptions` (src/main.rs lines 243-247). -/
structure PlayTrackOptions where
  track_id : Nat
  seek_ts : Nat
deriving DecidableEq, Repr

/-- `DecoderOptions`: the engine only ever sets `verify`. -/
structure DecoderOptions where
  verify : Bool
deriving DecidableEq, Repr

/-- `AudioEngineState` (src/main.rs lines 260-267). -/
structure AudioEngineState where
  reader : Option FormatReader
  audio_output : Option AudioOutput
  track_num : Option Nat
  seek : Option SeekPosition
  decode_opts : Option DecoderOptions
  track_info : Option PlayTrackOptions
deriving DecidableEq, Repr

/-- The environment the engine runs against: the file system and the
`symphonia` probe/codec registry, plus the sink device.  `openFile` is
whether `std::fs::File::open` succeeds, `probe` the result of
`get_probe().format(..)`, `makeDecoder` the result of
`get_codecs().make(..)` (`none` is a construction failure),
`tryOpenOk` whether `output::try_open` succeeds for a spec/duration,
and `writeOk` whether sink writes succeed. -/
structure Env where
  openFile : Path → Bool
  probe : Path → Except SymError FormatReader
  makeDecoder : CodecParams → DecoderOptions → Option Decoder
  tryOpenOk : Nat → Nat → Bool
  writeOk : Bool

/-- The hardcoded engine time base: src/main.rs line 56 sets
`time_base = 1.0 / 44100.0` with the comment "This needs to be based on
the file...".  `packet.ts as f64 * time_base` cast to `u64` is `ts / 44100`. -/
def timestampSeconds (ts : Nat) : Nat := ts / 44100

/-- `setup_audio_reader` (src/main.rs lines 324-378).  Selects a track
(the `track_num` index if set and valid, else the first supported
track), attempts the seek recorded in `aes.seek`, and installs
`PlayTrackOptions`.  Returns the log lines and either the updated state
or a panic: the source unwraps `aes.reader` (line 327) and, in the
`ResetRequired` arm, `first_supported_track(..).unwrap()` (line 358).
If no track is selected it returns early without touching
`track_info`.  The function always returns `Ok(0)`, so the `i32` result
is elided here. -/
def setup_audio_reader (aes : AudioEngineState) :
    List LogMsg × Except String AudioEngineState :=
  match aes.reader with
  | none => ([], .error "called unwrap on a None reader")
  | some reader =>
    let track? := (aes.track_num.bind (fun t => reader.tracks.get? t)).orElse
      (fun _ => first_supported_track reader.tracks)
    match track? with
    | none => ([], .ok aes)
    | some track =>
      let track_id := track.id
      match aes.seek with
      | some _ =>
        match reader.seekResponse with
        | .ok required_ts =>
            ([⟨.info, "seek ts"⟩],
             .ok { aes with track_info := some ⟨track_id, required_ts⟩ })
        | .error .resetRequired =>
            match first_supported_track reader.tracks with
            | none =>
                ([⟨.warn, "reset required"⟩],
                 .error "called unwrap on a None first supported track")
            | some t2 =>
                ([⟨.warn, "reset required"⟩, ⟨.info, "seek ts"⟩],
                 .ok { aes with track_info := some ⟨t2.id, 0⟩ })
        | .error _ =>
            ([⟨.warn, "seek error"⟩, ⟨.info, "seek ts"⟩],
             .ok { aes with track_info := some ⟨track_id, 0⟩ })
      | none =>
          ([⟨.info, "seek ts"⟩],
           .ok { aes with track_info := some ⟨track_id, 0⟩ })

/-- `load_file` (src/main.rs lines 269-321).  Opens and probes the
source.  A probe failure only logs a warning and leaves the engine
state and decoder untouched.  On success it installs the reader, the
decode options and the seek request, runs `setup_audio_reader`, then
unwraps `track_info` (line 295), looks the selected track up again by
id (early return with a warning if absent, decoder untouched), builds
the decoder via `.expect("Failed to get decoder")` (line 307) and
finally unwraps the track time base inside the closing log line
(line 313).  `File::open(path).expect("couldn't open file")` (line 276)
panics when the file cannot be opened. -/
def load_file (env : Env) (path : Path) (aes : AudioEngineState)
    (decoder : Option Decoder) (seek_to_seconds : ℚ) :
    List LogMsg × Except String (AudioEngineState × Option Decoder) :=
  if env.openFile path = false then
    ([], .error "could not open file")
  else
    match env.probe path with
    | .error _ =>
        ([⟨.warn, "the audio format is not supported"⟩], .ok (aes, decoder))
    | .ok probedReader =>
      let decode_opts : DecoderOptions := ⟨true⟩
      let aes1 := { aes with
        reader := some probedReader
        decode_opts := some decode_opts
        seek := some (.time seek_to_seconds) }
      let setup := setup_audio_reader aes1
      match setup.2 with
      | .error m => (setup.1, .error m)
      | .ok aes2 =>
        match aes2.reader with
        | none => (setup.1, .error "called unwrap on a None reader")
        | some reader =>
          match aes2.track_info with
          | none => (setup.1, .error "called unwrap on a None track info")
          | some play_opts =>
            match reader.tracks.find? (fun t => t.id = play_opts.track_id) with
            | none =>
                (setup.1 ++ [⟨.warn, "Could not find track"⟩], .ok (aes2, decoder))
            | some track =>
              match env.makeDecoder track.codecParams decode_opts with
              | none => (setup.1, .error "Failed to get decoder")
              | some d =>
                match track.codecParams.timeBase with
                | none => (setup.1, .error "called unwrap on a None time base")
                | some _ =>
                    (setup.1 ++ [⟨.info, "Track Duration and TimeBase"⟩],
                     .ok (aes2, some d))

/-- Exit status of the decode/output loop (the inner `loop` of
src/main.rs lines 66-139): either a `break` carrying the loop `result`
together with the final transport state, sink, decoder, unread command
schedule and unread packet results, or a panic. -/
inductive LoopExit where
  | broke (result : Except SymError Unit) (state : PlayerState)
      (out : Option AudioOutput) (dec : Option Decoder)
      (cmds : List (Option AudioCommand))
      (packetsLeft : List (Except SymError Packet))
  | panicked (msg : String)
deriving DecidableEq, Repr

/-- Accumulated observable output of the decode/output loop: the UI
events sent, the log lines, the `(timestamp, buffer)` pairs written to
the sink during this run of the loop, and how the loop ended. -/
structure LoopOut where
  events : List UiCommand
  logs : List LogMsg
  written : List (Nat × Decoded)
  exit : LoopExit
deriving DecidableEq, Repr

/-- Prepend events/logs/writes of one loop iteration onto the output of
the remaining iterations. -/
def LoopOut.emit (ev : List UiCommand) (lg : List LogMsg)
    (wr : List (Nat × Decoded)) (o : LoopOut) : LoopOut :=
  { o with
    events := ev ++ o.events
    logs := lg ++ o.logs
    written := wr ++ o.written }

/-- The decode/output loop from the `next_packet` call onward
(src/main.rs lines 77-138), recursing over the reader's remaining
packet results.  The invariant at every call: the transport state is
`Playing`, `reader`/`track_info` were successfully unwrapped by
`decodeLoop` (the loop itself never changes them, so the per-iteration
unwraps at lines 73-74 cannot fail after the first iteration).  Each
iteration: pull a packet (an exhausted oracle behaves like the
persistent end-of-stream error), emit the position event, skip packets
of other tracks, decode (unwrapping the decoder at line 98), open the
sink on first decode (`try_open(..).unwrap()` — a panic on failure,
line 112), write the samples when `packet.ts ≥ play_opts.seek_ts`
(`audio_output.write(decoded).unwrap()` — a panic on failure,
line 128), then drain at most one command and break with `Ok(())`
unless still `Playing`. -/
def decodeLoopGo (env : Env) (cmds : List (Option AudioCommand))
    (opts : PlayTrackOptions) (out : Option AudioOutput) (dec : Option Decoder) :
    List (Except SymError Packet) → LoopOut
  | [] =>
      ⟨[], [⟨.warn, "could not decode next packet"⟩], [],
       .broke (.error .ioEndOfStream) .playing out dec cmds []⟩
  | entry :: rest =>
    match entry with
    | .error e =>
        ⟨[], [⟨.warn, "could not decode next packet"⟩], [],
         .broke (.error e) .playing out dec cmds rest⟩
    | .ok packet =>
      let ev : UiCommand := .currentTimestamp (timestampSeconds packet.ts)
      if packet.trackId ≠ opts.track_id then
        -- skip the packet, then the next iteration drains a command
        let next := process_audio_cmd (cmds.head?.getD none) .playing
        if next.1 = .playing then
          LoopOut.emit [ev] ([⟨.warn, "packet track id does not match track id"⟩] ++ next.2) []
            (decodeLoopGo env (cmds.drop 1) opts out dec rest)
        else
          ⟨[ev], [⟨.warn, "packet track id does not match track id"⟩] ++ next.2, [],
           .broke (.ok ()) next.1 out dec (cmds.drop 1) rest⟩
      else
        match dec with
        | none =>
            ⟨[ev], [], [], .panicked "called unwrap on a None decoder"⟩
        | some d0 =>
          let dres := d0.decode
          match dres.1 with
          | .ok decoded =>
            -- open the sink if not yet open (panic when `try_open` fails)
            let opened : Except String AudioOutput :=
              match out with
              | none =>
                if env.tryOpenOk decoded.spec decoded.capacity = false then
                  .error "try open failed"
                else
                  .ok ⟨decoded.spec, decoded.capacity, []⟩
              | some o0 => .ok o0
            match opened with
            | .error m => ⟨[ev], [], [], .panicked m⟩
            | .ok o0 =>
              -- the soft-seek trim: write only at or above the threshold
              if opts.seek_ts ≤ packet.ts then
                if env.writeOk = false then
                  ⟨[ev], [], [], .panicked "sink write failed"⟩
                else
                  let o1 := { o0 with written := o0.written ++ [(packet.ts, decoded)] }
                  let next := process_audio_cmd (cmds.head?.getD none) .playing
                  if next.1 = .playing then
                    LoopOut.emit [ev] next.2 [(packet.ts, decoded)]
                      (decodeLoopGo env (cmds.drop 1) opts (some o1) (some dres.2) rest)
                  else
                    ⟨[ev], next.2, [(packet.ts, decoded)],
                     .broke (.ok ()) next.1 (some o1) (some dres.2) (cmds.drop 1) rest⟩
              else
                let next := process_audio_cmd (cmds.head?.getD none) .playing
                if next.1 = .playing then
                  LoopOut.emit [ev] next.2 []
                    (decodeLoopGo env (cmds.drop 1) opts (some o0) (some dres.2) rest)
                else
                  ⟨[ev], next.2, [],
                   .broke (.ok ()) next.1 (some o0) (some dres.2) (cmds.drop 1) rest⟩
          | .error (.decodeError _) =>
            let next := process_audio_cmd (cmds.head?.getD none) .playing
            if next.1 = .playing then
              LoopOut.emit [ev] ([⟨.warn, "decode error"⟩] ++ next.2) []
                (decodeLoopGo env (cmds.drop 1) opts out (some dres.2) rest)
            else
              ⟨[ev], [⟨.warn, "decode error"⟩] ++ next.2, [],
               .broke (.ok ()) next.1 out (some dres.2) (cmds.drop 1) rest⟩
          | .error e =>
              ⟨[ev], [], [], .broke (.error e) .playing out (some dres.2) cmds rest⟩

/-- The decode/output loop (src/main.rs lines 66-139): the first
iteration drains at most one command (line 67), breaks with `Ok(())` if
the state moved away from `Playing` (lines 69-71), unwraps the reader
and the active `PlayTrackOptions` (lines 73-74) and then runs
`decodeLoopGo` over the reader's packet results. -/
def decodeLoop (env : Env) (cmds : List (Option AudioCommand))
    (state : PlayerState) (aes : AudioEngineState) (dec : Option Decoder) :
    LoopOut :=
  let next := process_audio_cmd (cmds.head?.getD none) state
  if next.1 ≠ .playing then
    ⟨[], next.2, [],
     .broke (.ok ()) next.1 aes.audio_output dec (cmds.drop 1)
       ((aes.reader.map FormatReader.packets).getD [])⟩
  else
    match aes.reader with
    | none => ⟨[], next.2, [], .panicked "called unwrap on a None reader"⟩
    | some reader =>
      match aes.track_info with
      | none => ⟨[], next.2, [], .panicked "called unwrap on a None track info"⟩
      | some opts =>
          LoopOut.emit [] next.2 []
            (decodeLoopGo env (cmds.drop 1) opts aes.audio_output dec reader.packets)

/-- The engine thread's full mutable state (src/main.rs lines 42-56):
the transport state, the `AudioEngineState`, and the loop-local
variables `decoder`, `_volume` and `current_track_path`. -/
structure Engine where
  state : PlayerState
  aes : AudioEngineState
  decoder : Option Decoder
  volume : ℚ
  current_track_path : Option Path
deriving DecidableEq, Repr

/-- How one iteration of the outer engine loop ends: normally, with the
new engine state and the unread command schedule, or in a panic of the
engine thread. -/
inductive EngineExit where
  | ok (e : Engine) (cmds : List (Option AudioCommand))
  | panicked (msg : String)
deriving DecidableEq, Repr

/-- The `match state` body of one outer-loop iteration (src/main.rs
lines 62-193), after the iteration's own `process_audio_cmd` resolved
the state to `st`.  Returns the events sent, the log lines, and the
exit.

* `Playing` runs the decode/output loop, then logs an error-level
  `playing error` line if the loop result is an error (line 142),
  panics at `ignore_end_of_stream_error(result).expect("failed to
  ignore EoF")` for any non-end-of-stream error (line 146), and
  finalizes the decoder — `decoder.as_mut().unwrap()` (line 149) —
  logging the verification outcome.
* `Stopped` flushes and releases the sink.
* `SeekTo` reloads the remembered path at the requested offset and
  moves to `Playing`; with no remembered path it does nothing (and the
  state stays `SeekTo`).
* `LoadFile` releases the sink, remembers the path, loads it at offset
  0 and moves to `Playing` (regardless of load success).
* `Paused` and `Unstarted` do nothing. -/
def engineBranch (env : Env) (cmds : List (Option AudioCommand))
    (st : PlayerState) (e : Engine) :
    List UiCommand × List LogMsg × EngineExit :=
  match st with
  | .playing =>
    let res := decodeLoop env cmds st e.aes e.decoder
    match res.exit with
    | .panicked m => (res.events, res.logs, .panicked m)
    | .broke result st2 out2 dec2 cmds2 pkts2 =>
      let aes2 := { e.aes with
        reader := e.aes.reader.map (fun r => { r with packets := pkts2 })
        audio_output := out2 }
      let errLogs : List LogMsg :=
        match result with
        | .error _ => [⟨.error, "playing error"⟩]
        | .ok _ => []
      match ignore_end_of_stream_error result with
      | .error _ =>
          (res.events, res.logs ++ errLogs, .panicked "failed to ignore EoF")
      | .ok _ =>
        match dec2 with
        | none =>
            (res.events, res.logs ++ errLogs,
             .panicked "called unwrap on a None decoder")
        | some d =>
            (res.events,
             res.logs ++ errLogs ++ (do_verification d.finalizeVerifyOk).1,
             .ok ⟨st2, aes2, some d, e.volume, e.current_track_path⟩ cmds2)
  | .stopped =>
      ([], [],
       .ok ⟨st, { e.aes with
                    audio_output := e.aes.audio_output.map AudioOutput.flush
                      |>.bind (fun _ => none) },
            e.decoder, e.volume, e.current_track_path⟩ cmds)
  | .seekTo seconds =>
    match e.current_track_path with
    | some p =>
      let aes1 := { e.aes with
        audio_output := e.aes.audio_output.map AudioOutput.flush
          |>.bind (fun _ => none) }
      let load := load_file env p aes1 e.decoder (seconds : ℚ)
      match load.2 with
      | .error m => ([], load.1, .panicked m)
      | .ok (aes2, dec2) =>
          ([], load.1,
           .ok ⟨.playing, aes2, dec2, e.volume, e.current_track_path⟩ cmds)
    | none =>
        ([], [], .ok ⟨st, e.aes, e.decoder, e.volume, e.current_track_path⟩ cmds)
  | .loadFile path =>
    let aes1 := { e.aes with
      audio_output := e.aes.audio_output.map AudioOutput.flush
        |>.bind (fun _ => none) }
    let load := load_file env path aes1 e.decoder 0
    match load.2 with
    | .error m => ([], load.1, .panicked m)
    | .ok (aes2, dec2) =>
        ([], load.1, .ok ⟨.playing, aes2, dec2, e.volume, some path⟩ cmds)
  | .paused =>
      ([], [], .ok ⟨st, e.aes, e.decoder, e.volume, e.current_track_path⟩ cmds)
  | .unstarted =>
      ([], [], .ok ⟨st, e.aes, e.decoder, e.volume, e.current_track_path⟩ cmds)

/-- One full iteration of the outer engine loop (src/main.rs lines
59-194): drain at most one command, then run the state branch. -/
def engineIterate (env : Env) (cmds : List (Option AudioCommand)) (e : Engine) :
    List UiCommand × List LogMsg × EngineExit :=
  let next := process_audio_cmd (cmds.head?.getD none) e.state
  let res := engineBranch env (cmds.drop 1) next.1 e
  (res.1, next.2 ++ res.2.1, res.2.2)

/-- The `_volume` recorded in a normal exit (`none` if the thread
panicked). -/
def exitVolume : EngineExit → Option ℚ
  | .ok e _ => some e.volume
  | .panicked _ => none

/-- The engine thread at boot (src/main.rs lines 42-56): state
`Unstarted`, an empty `AudioEngineState`, no decoder, `_volume = 1.0`,
no remembered path. -/
def engineInit : Engine :=
  ⟨.unstarted, ⟨none, none, none, none, none, none⟩, none, 1, none⟩

/-- The spec reading of the position event value: the packet timestamp
times the selected track's `numer/denom` time base, truncated to whole
seconds (compare with `timestampSeconds`, the hardcoded computation the
engine performs). -/
def specTimestampSeconds (tb : Nat × Nat) (ts : Nat) : Nat :=
  ts * tb.1 / tb.2

/-- C1.  The audio engine thread panics when a `LoadFile` command names
a source path that cannot be opened: `load_file` calls
`File::open(path).expect("couldn't open file")` (src/main.rs line 276),
so a missing or unreadable file kills the engine thread instead of
leaving it idle and consuming further commands.  Evaluated from the
boot state with an environment whose file open fails. -/
theorem engine_panics_on_unopenable_load :
    engineIterate
        ⟨fun _ => false, fun _ => .error .unsupported, fun _ _ => none,
         fun _ _ => true, true⟩
        [some (.loadFile "missing.mp3")] engineInit =
      ([], [⟨.info, "Processing LOAD FILE command"⟩],
       .panicked "could not open file") := rfl

/-- C2.  When the decode loop exits with a read error that is not
end-of-stream, the engine thread panics at
`ignore_end_of_stream_error(result).expect("failed to ignore EoF")`
(src/main.rs line 146) instead of returning to its control loop: here
the reader reports a non-end-of-stream I/O error on the first packet
while Playing, and the iteration ends in a panic (after producing the
error-level log of line 142). -/
theorem engine_panics_on_fatal_read_error :
    engineIterate
        ⟨fun _ => true, fun _ => .error .unsupported, fun _ _ => none,
         fun _ _ => true, true⟩
        []
        ⟨.playing,
         ⟨some ⟨[⟨1, ⟨1, some (1, 44100), none, 0⟩⟩], .ok 0, [.error .ioOther]⟩,
          none, none, none, none, some ⟨1, 0⟩⟩,
         some ⟨[], none⟩, 1, some "a.mp3"⟩ =
      ([], [⟨.warn, "could not decode next packet"⟩, ⟨.error, "playing error"⟩],
       .panicked "failed to ignore EoF") := rfl

/-- C5 counterexample.  A `Pause` command received while `Stopped` is
not a no-op: `process_audio_cmd` unconditionally overwrites the
transport state, so the state becomes `Paused`. -/
theorem pause_while_stopped_changes_state :
    (process_audio_cmd (some .pause) .stopped).1 = .paused ∧
      PlayerState.paused ≠ PlayerState.stopped := by
  refine ⟨rfl, ?_⟩
  decide

/-- C5 amended.  Only `Select` and `SetVolume` are no-ops on the
transport state (consumed by the unhandled arm with a warning log);
every other command unconditionally overwrites the transport state with
its target state regardless of the current state, and an empty queue
leaves the state unchanged with no log. -/
theorem process_audio_cmd_unconditional (s : PlayerState) (i : Nat) (q : ℚ)
    (sec : Nat) (p : Path) :
    process_audio_cmd none s = (s, []) ∧
    process_audio_cmd (some (.select i)) s =
      (s, [⟨.warn, "Unhandled case in audio command loop"⟩]) ∧
    process_audio_cmd (some (.setVolume q)) s =
      (s, [⟨.warn, "Unhandled case in audio command loop"⟩]) ∧
    process_audio_cmd (some .stop) s =
      (.stopped, [⟨.info, "Processing STOP command"⟩]) ∧
    process_audio_cmd (some .play) s =
      (.playing, [⟨.info, "Processing PLAY command"⟩]) ∧
    process_audio_cmd (some .pause) s =
      (.paused, [⟨.info, "Processing PAUSE command"⟩]) ∧
    process_audio_cmd (some (.seek sec)) s =
      (.seekTo sec, [⟨.info, "Processing SEEK command"⟩]) ∧
    process_audio_cmd (some (.loadFile p)) s =
      (.loadFile p, [⟨.info, "Processing LOAD FILE command"⟩]) := by
  refine ⟨rfl, rfl, rfl, rfl, rfl, rfl, rfl, rfl⟩

/-- C3 counterexample.  Reaching end-of-stream while Playing does not
produce exactly one `AudioFinished` event with no fatal-error log: the
engine never constructs `UiCommand::AudioFinished` anywhere, and the
`if result.is_err()` check of src/main.rs line 141 fires on the
end-of-stream result before `ignore_end_of_stream_error` swallows it,
logging an error-level `playing error` line.  Concrete run: Playing
with an exhausted reader. -/
theorem eos_audioFinished_claim_fails :
    ¬ (((engineIterate
          ⟨fun _ => true, fun _ => .error .unsupported, fun _ _ => none,
           fun _ _ => true, true⟩
          []
          ⟨.playing,
           ⟨some ⟨[⟨1, ⟨1, some (1, 44100), none, 0⟩⟩], .ok 0, []⟩,
            none, none, none, none, some ⟨1, 0⟩⟩,
           some ⟨[], none⟩, 1, some "a.mp3"⟩).1.count UiCommand.audioFinished = 1) ∧
        ((engineIterate
          ⟨fun _ => true, fun _ => .error .unsupported, fun _ _ => none,
           fun _ _ => true, true⟩
          []
          ⟨.playing,
           ⟨some ⟨[⟨1, ⟨1, some (1, 44100), none, 0⟩⟩], .ok 0, []⟩,
            none, none, none, none, some ⟨1, 0⟩⟩,
           some ⟨[], none⟩, 1, some "a.mp3"⟩).2.1.any
            (fun l => l.level == .error) = false)) := by
  decide

/-- C3 amended.  When the decode loop reaches end-of-stream with no
command pending, no `AudioFinished` event is emitted (no event at all
is), an error-level `playing error` log line is produced, and the
end-of-stream result is then converted to `Ok` by
`ignore_end_of_stream_error`, so the engine thread survives and returns
to its control loop with its state (still `Playing`) and session
unchanged. -/
theorem eos_no_audioFinished_error_log_engine_survives
    (env : Env) (e : Engine) (r : FormatReader) (opts : PlayTrackOptions)
    (d : Decoder)
    (hst : e.state = .playing) (hr : e.aes.reader = some r)
    (hp : r.packets = []) (hti : e.aes.track_info = some opts)
    (hd : e.decoder = some d) (hv : d.finalizeVerifyOk = none) :
    engineIterate env [] e =
      ([], [⟨.warn, "could not decode next packet"⟩, ⟨.error, "playing error"⟩],
       .ok e []) := by
  obtain ⟨st, aes, dec, vol, path⟩ := e
  obtain ⟨rd, out, tn, sk, dopts, ti⟩ := aes
  obtain ⟨tks, sr, pks⟩ := r
  obtain ⟨dres, dfin⟩ := d
  simp only at hst hr hp hti hd hv
  subst hst hr hp hti hd hv
  rfl

/-- Witness for C3's amended theorem at a concrete engine state. -/
theorem eos_no_audioFinished_error_log_engine_survives_witness :
    engineIterate
        ⟨fun _ => true, fun _ => .error .unsupported, fun _ _ => none,
         fun _ _ => true, true⟩
        []
        ⟨.playing,
         ⟨some ⟨[⟨1, ⟨1, some (1, 44100), none, 0⟩⟩], .ok 0, []⟩,
          none, none, none, none, some ⟨2, 5⟩⟩,
         some ⟨[], none⟩, 1, some "b.mp3"⟩ =
      ([], [⟨.warn, "could not decode next packet"⟩, ⟨.error, "playing error"⟩],
       .ok ⟨.playing,
            ⟨some ⟨[⟨1, ⟨1, some (1, 44100), none, 0⟩⟩], .ok 0, []⟩,
             none, none, none, none, some ⟨2, 5⟩⟩,
            some ⟨[], none⟩, 1, some "b.mp3"⟩ []) :=
  eos_no_audioFinished_error_log_engine_survives _ _ _ _ _
    rfl rfl rfl rfl rfl rfl

/-- C4.  The soft-seek trim invariant of the decode/output loop: every
`(timestamp, buffer)` pair written to the output sink during a run of
the loop has `timestamp ≥ seek_ts` of the active `PlayTrackOptions`
(src/main.rs line 120); packets below the threshold are decoded, and
their timestamp event may be emitted, but their samples are never
written. -/
theorem written_samples_respect_seek_threshold (env : Env)
    (cmds : List (Option AudioCommand)) (opts : PlayTrackOptions)
    (out : Option AudioOutput) (dec : Option Decoder)
    (packets : List (Except SymError Packet)) :
    ((decodeLoopGo env cmds opts out dec packets).written.all
      (fun w => decide (opts.seek_ts ≤ w.1))) = true := by
  induction packets generalizing cmds out dec with
  | nil => rfl
  | cons entry rest ih =>
    cases entry with
    | error e => rfl
    | ok packet =>
      simp only [decodeLoopGo, LoopOut.emit]
      repeat' split
      all_goals simp_all
      all_goals exact fun a b hm => ih _ _ _ a b hm

/-- C6 counterexample.  The per-packet position event is not computed
from the selected track's time base: the engine multiplies the packet
timestamp by the hardcoded `1.0 / 44100.0` (src/main.rs line 56).  With
a selected track whose time base is `1/48000` and a packet at
timestamp 44100, the engine emits `CurrentTimestamp 1`, while the
claimed computation from the track's time base yields 0. -/
theorem timestamp_event_ignores_track_time_base :
    (engineIterate
        ⟨fun _ => true, fun _ => .error .unsupported, fun _ _ => none,
         fun _ _ => true, true⟩
        []
        ⟨.playing,
         ⟨some ⟨[⟨1, ⟨1, some (1, 48000), none, 0⟩⟩], .ok 0, [.ok ⟨44100, 1⟩]⟩,
          none, none, none, none, some ⟨1, 0⟩⟩,
         some ⟨[.ok ⟨7, 9⟩], none⟩, 1, some "a.mp3"⟩).1 ≠
      [UiCommand.currentTimestamp (specTimestampSeconds (1, 48000) 44100)] ∧
    (engineIterate
        ⟨fun _ => true, fun _ => .error .unsupported, fun _ _ => none,
         fun _ _ => true, true⟩
        []
        ⟨.playing,
         ⟨some ⟨[⟨1, ⟨1, some (1, 48000), none, 0⟩⟩], .ok 0, [.ok ⟨44100, 1⟩]⟩,
          none, none, none, none, some ⟨1, 0⟩⟩,
         some ⟨[.ok ⟨7, 9⟩], none⟩, 1, some "a.mp3"⟩).1 =
      [UiCommand.currentTimestamp 1] ∧
    specTimestampSeconds (1, 48000) 44100 = 0 := by
  refine ⟨by decide, by decide, by decide⟩

/-- Stepping lemma for the per-packet event accounting: a successfully
pulled packet contributes its own position event in front of whatever
the rest of the loop emits. -/
theorem events_take_cons (env : Env) (cmds2 : List (Option AudioCommand))
    (opts : PlayTrackOptions) (out2 : Option AudioOutput) (dec2 : Option Decoder)
    (rest : List (Except SymError Packet)) (packet : Packet)
    (h : ∃ n, n ≤ rest.length ∧
        (decodeLoopGo env cmds2 opts out2 dec2 rest).events =
          ((rest.take n).filterMap Except.toOption).map
            (fun p => UiCommand.currentTimestamp (timestampSeconds p.ts))) :
    ∃ n, n ≤ (Except.ok packet :: rest : List (Except SymError Packet)).length ∧
      UiCommand.currentTimestamp (timestampSeconds packet.ts) ::
          (decodeLoopGo env cmds2 opts out2 dec2 rest).events =
        (((Except.ok packet :: rest).take n).filterMap Except.toOption).map
          (fun p => UiCommand.currentTimestamp (timestampSeconds p.ts)) := by
  obtain ⟨n, hn, he⟩ := h
  exact ⟨n + 1, by simpa using Nat.succ_le_succ hn, by simp [he, Except.toOption]⟩

/-- C6 amended.  In the decode loop, exactly one position event is
emitted per successfully pulled packet — in order, regardless of
whether the packet is filtered out, fails to decode, or is written —
and its value is the packet's presentation time divided by the
hardcoded 44100 tick rate (`timestampSeconds`), not the selected
track's time base. -/
theorem one_timestamp_event_per_pulled_packet (env : Env)
    (cmds : List (Option AudioCommand)) (opts : PlayTrackOptions)
    (out : Option AudioOutput) (dec : Option Decoder)
    (packets : List (Except SymError Packet)) :
    ∃ n, n ≤ packets.length ∧
      (decodeLoopGo env cmds opts out dec packets).events =
        ((packets.take n).filterMap Except.toOption).map
          (fun p => UiCommand.currentTimestamp (timestampSeconds p.ts)) := by
  induction packets generalizing cmds out dec with
  | nil => exact ⟨0, Nat.le_refl _, rfl⟩
  | cons entry rest ih =>
    cases entry with
    | error e => exact ⟨0, Nat.zero_le _, rfl⟩
    | ok packet =>
      simp only [decodeLoopGo, LoopOut.emit]
      repeat' split
      all_goals first
        | exact ⟨0, Nat.zero_le _, rfl⟩
        | (refine ⟨1, by simp, ?_⟩; simp [Except.toOption]; done)
        | (dsimp only; exact events_take_cons _ _ _ _ _ _ _ (ih _ _ _))

/-- C7.  During the load procedure with a positive seek offset, no seek
failure aborts the load or panics the engine: whatever error the
reader's seek reports — `ResetRequired` (after which the first
supported track is re-selected, which with no explicit track number is
the same selection the load made initially) or any other error — the
load completes normally, installs `PlayTrackOptions` with
`seek_timestamp = 0`, and installs the new decoder.  Hypotheses: the
file opens and probes, no explicit track number is set, the probed
reader has a supported track `tr` whose id looks itself up, the seek
response is an error, the codec registry yields a decoder for `tr`, and
`tr` carries a time base (for the closing log line). -/
theorem seek_failure_never_aborts_load (env : Env) (p : Path)
    (aes : AudioEngineState) (dec : Option Decoder) (t : ℚ)
    (r : FormatReader) (tr : Track) (se : SymError) (d : Decoder)
    (tb : Nat × Nat)
    (hopen : env.openFile p = true)
    (hprobe : env.probe p = .ok r)
    (htn : aes.track_num = none)
    (hfirst : first_supported_track r.tracks = some tr)
    (hfind : r.tracks.find? (fun tk => tk.id = tr.id) = some tr)
    (hseek : r.seekResponse = .error se)
    (hmk : env.makeDecoder tr.codecParams ⟨true⟩ = some d)
    (htb : tr.codecParams.timeBase = some tb)
    (_hpos : 0 < t) :
    ∃ logs, load_file env p aes dec t =
      (logs,
       .ok ({ aes with
                reader := some r
                decode_opts := some ⟨true⟩
                seek := some (.time t)
                track_info := some ⟨tr.id, 0⟩ },
            some d)) := by
  obtain ⟨rd, out, tn, sk, dopts, ti⟩ := aes
  simp only at htn
  subst htn
  cases se <;>
    simp [load_file, setup_audio_reader, hopen, hprobe, hfirst, hfind, hseek,
      hmk, htb]

/-- Witness for C7 at a concrete environment and load request. -/
theorem seek_failure_never_aborts_load_witness :
    ∃ logs,
      load_file
        ⟨fun _ => true,
         fun _ => .ok ⟨[⟨1, ⟨1, some (1, 44100), none, 0⟩⟩], .error .seekError,
                       [.ok ⟨0, 1⟩]⟩,
         fun _ _ => some ⟨[], none⟩, fun _ _ => true, true⟩
        "a.mp3" ⟨none, none, none, none, none, none⟩ none 5 =
      (logs,
       .ok (⟨some ⟨[⟨1, ⟨1, some (1, 44100), none, 0⟩⟩], .error .seekError,
                   [.ok ⟨0, 1⟩]⟩,
             none, none, some (.time 5), some ⟨true⟩, some ⟨1, 0⟩⟩,
            some ⟨[], none⟩)) :=
  seek_failure_never_aborts_load _ _ _ _ _ _ ⟨1, ⟨1, some (1, 44100), none, 0⟩⟩
    .seekError ⟨[], none⟩ (1, 44100) rfl rfl rfl rfl rfl rfl rfl rfl
    (by norm_num)

/-- C8.  `Pause` then `Play` while a track is playing resumes with the
same session: consuming the `Pause` leaves every engine field except
the transport state untouched (same reader, same decoder, same sink —
nothing is flushed, re-opened or reloaded), and the subsequent `Play`
makes the engine behave exactly as if it had never been paused: its
iteration produces the same events, the same exit (hence the same
session identity) and the same logs apart from the `PLAY` command log,
as an iteration of the never-paused engine with no command pending. -/
theorem pause_play_preserves_session (env : Env) (e : Engine)
    (h : e.state = .playing) :
    engineIterate env [some .pause] e =
      ([], [⟨.info, "Processing PAUSE command"⟩],
       .ok ⟨.paused, e.aes, e.decoder, e.volume, e.current_track_path⟩ []) ∧
    ∀ cs,
      engineIterate env (some .play :: cs)
          ⟨.paused, e.aes, e.decoder, e.volume, e.current_track_path⟩ =
        ((engineIterate env (none :: cs) e).1,
         ⟨.info, "Processing PLAY command"⟩ :: (engineIterate env (none :: cs) e).2.1,
         (engineIterate env (none :: cs) e).2.2) := by
  constructor
  · rfl
  · intro cs
    simp only [engineIterate, process_audio_cmd, h]
    rfl

/-- Witness for C8 at a concrete playing engine. -/
theorem pause_play_preserves_session_witness :
    engineIterate
        ⟨fun _ => true, fun _ => .error .unsupported, fun _ _ => none,
         fun _ _ => true, true⟩
        [some .pause]
        ⟨.playing,
         ⟨some ⟨[⟨1, ⟨1, some (1, 44100), none, 0⟩⟩], .ok 0, [.ok ⟨0, 1⟩]⟩,
          none, none, none, none, some ⟨1, 0⟩⟩,
         some ⟨[.ok ⟨7, 9⟩], none⟩, 1, some "a.mp3"⟩ =
      ([], [⟨.info, "Processing PAUSE command"⟩],
       .ok ⟨.paused,
            ⟨some ⟨[⟨1, ⟨1, some (1, 44100), none, 0⟩⟩], .ok 0, [.ok ⟨0, 1⟩]⟩,
             none, none, none, none, some ⟨1, 0⟩⟩,
            some ⟨[.ok ⟨7, 9⟩], none⟩, 1, some "a.mp3"⟩ []) ∧
    engineIterate
        ⟨fun _ => true, fun _ => .error .unsupported, fun _ _ => none,
         fun _ _ => true, true⟩
        [some .play]
        ⟨.paused,
         ⟨some ⟨[⟨1, ⟨1, some (1, 44100), none, 0⟩⟩], .ok 0, [.ok ⟨0, 1⟩]⟩,
          none, none, none, none, some ⟨1, 0⟩⟩,
         some ⟨[.ok ⟨7, 9⟩], none⟩, 1, some "a.mp3"⟩ =
      ((engineIterate
          ⟨fun _ => true, fun _ => .error .unsupported, fun _ _ => none,
           fun _ _ => true, true⟩
          [none]
          ⟨.playing,
           ⟨some ⟨[⟨1, ⟨1, some (1, 44100), none, 0⟩⟩], .ok 0, [.ok ⟨0, 1⟩]⟩,
            none, none, none, none, some ⟨1, 0⟩⟩,
           some ⟨[.ok ⟨7, 9⟩], none⟩, 1, some "a.mp3"⟩).1,
       ⟨.info, "Processing PLAY command"⟩ ::
         (engineIterate
          ⟨fun _ => true, fun _ => .error .unsupported, fun _ _ => none,
           fun _ _ => true, true⟩
          [none]
          ⟨.playing,
           ⟨some ⟨[⟨1, ⟨1, some (1, 44100), none, 0⟩⟩], .ok 0, [.ok ⟨0, 1⟩]⟩,
            none, none, none, none, some ⟨1, 0⟩⟩,
           some ⟨[.ok ⟨7, 9⟩], none⟩, 1, some "a.mp3"⟩).2.1,
       (engineIterate
          ⟨fun _ => true, fun _ => .error .unsupported, fun _ _ => none,
           fun _ _ => true, true⟩
          [none]
          ⟨.playing,
           ⟨some ⟨[⟨1, ⟨1, some (1, 44100), none, 0⟩⟩], .ok 0, [.ok ⟨0, 1⟩]⟩,
            none, none, none, none, some ⟨1, 0⟩⟩,
           some ⟨[.ok ⟨7, 9⟩], none⟩, 1, some "a.mp3"⟩).2.2) :=
  ⟨(pause_play_preserves_session
      ⟨fun _ => true, fun _ => .error .unsupported, fun _ _ => none,
       fun _ _ => true, true⟩
      ⟨.playing,
       ⟨some ⟨[⟨1, ⟨1, some (1, 44100), none, 0⟩⟩], .ok 0, [.ok ⟨0, 1⟩]⟩,
        none, none, none, none, some ⟨1, 0⟩⟩,
       some ⟨[.ok ⟨7, 9⟩], none⟩, 1, some "a.mp3"⟩ rfl).1,
   (pause_play_preserves_session
      ⟨fun _ => true, fun _ => .error .unsupported, fun _ _ => none,
       fun _ _ => true, true⟩
      ⟨.playing,
       ⟨some ⟨[⟨1, ⟨1, some (1, 44100), none, 0⟩⟩], .ok 0, [.ok ⟨0, 1⟩]⟩,
        none, none, none, none, some ⟨1, 0⟩⟩,
       some ⟨[.ok ⟨7, 9⟩], none⟩, 1, some "a.mp3"⟩ rfl).2 []⟩

/-- C9.  A decode error on a single packet is non-fatal to playback
(src/main.rs lines 132-136): with no command pending, after a matching
packet whose decode reports `DecodeError` the loop emits the position
event, logs the warning, and continues as the same loop on the
remaining packets with the decoder advanced — so subsequent valid
packets are still processed.  Any other decode failure breaks the loop
with that error (src/main.rs line 137). -/
theorem decode_error_nonfatal_other_decode_failures_fatal (env : Env)
    (rest : List (Except SymError Packet)) (opts : PlayTrackOptions)
    (out : Option AudioOutput) (ds : List (Except SymError Decoded))
    (f : Option Bool) (p : Packet) (m : String) (e : SymError)
    (htrack : p.trackId = opts.track_id)
    (hother : ∀ msg, e ≠ .decodeError msg) :
    (decodeLoopGo env [] opts out (some ⟨.error (.decodeError m) :: ds, f⟩)
        (.ok p :: rest) =
      LoopOut.emit [.currentTimestamp (timestampSeconds p.ts)]
        [⟨.warn, "decode error"⟩] []
        (decodeLoopGo env [] opts out (some ⟨ds, f⟩) rest)) ∧
    (decodeLoopGo env [] opts out (some ⟨.error e :: ds, f⟩) (.ok p :: rest) =
      ⟨[.currentTimestamp (timestampSeconds p.ts)], [], [],
       .broke (.error e) .playing out (some ⟨ds, f⟩) [] rest⟩) := by
  constructor
  · simp [decodeLoopGo, Decoder.decode, process_audio_cmd, htrack]
  · cases e with
    | decodeError msg => exact absurd rfl (hother msg)
    | _ => simp [decodeLoopGo, Decoder.decode, process_audio_cmd, htrack]

/-- Witness for C9: a corrupt packet at timestamp 0 followed by a valid
packet; the fatal alternative instantiated with a non-decode I/O
error. -/
theorem decode_error_nonfatal_other_decode_failures_fatal_witness :
    (decodeLoopGo
        ⟨fun _ => true, fun _ => .error .unsupported, fun _ _ => none,
         fun _ _ => true, true⟩
        [] ⟨1, 0⟩ none (some ⟨.error (.decodeError "corrupt") :: [.ok ⟨7, 9⟩], none⟩)
        (.ok ⟨0, 1⟩ :: [.ok ⟨44100, 1⟩]) =
      LoopOut.emit [.currentTimestamp (timestampSeconds 0)]
        [⟨.warn, "decode error"⟩] []
        (decodeLoopGo
          ⟨fun _ => true, fun _ => .error .unsupported, fun _ _ => none,
           fun _ _ => true, true⟩
          [] ⟨1, 0⟩ none (some ⟨[.ok ⟨7, 9⟩], none⟩) [.ok ⟨44100, 1⟩])) ∧
    (decodeLoopGo
        ⟨fun _ => true, fun _ => .error .unsupported, fun _ _ => none,
         fun _ _ => true, true⟩
        [] ⟨1, 0⟩ none (some ⟨.error .ioOther :: [.ok ⟨7, 9⟩], none⟩)
        (.ok ⟨0, 1⟩ :: [.ok ⟨44100, 1⟩]) =
      ⟨[.currentTimestamp (timestampSeconds 0)], [], [],
       .broke (.error .ioOther) .playing none (some ⟨[.ok ⟨7, 9⟩], none⟩) []
         [.ok ⟨44100, 1⟩]⟩) :=
  decode_error_nonfatal_other_decode_failures_fatal
    ⟨fun _ => true, fun _ => .error .unsupported, fun _ _ => none,
     fun _ _ => true, true⟩
    [.ok ⟨44100, 1⟩] ⟨1, 0⟩ none [.ok ⟨7, 9⟩] none ⟨0, 1⟩ "corrupt" .ioOther
    rfl (fun _ h => SymError.noConfusion h)

/-- Helper: no branch of the engine loop ever writes the engine-local
`_volume` variable — a normal exit carries the caller's volume
unchanged. -/
theorem engineBranch_volume (env : Env) (cmds : List (Option AudioCommand))
    (st : PlayerState) (e : Engine) :
    (exitVolume (engineBranch env cmds st e).2.2).getD e.volume = e.volume := by
  cases st <;> simp only [engineBranch] <;> (repeat' split) <;> simp [exitVolume]

/-- C10.  `Select` and `SetVolume` are consumed by the unhandled arm of
`process_audio_cmd` (src/main.rs line 229) with no effect: an engine
iteration that receives one behaves exactly — same events, same exit,
hence same transport state, session and volume — as an iteration that
receives no command, except for the extra warning log; and no iteration
whatsoever changes the engine-local `_volume`, which is initialised
once and never read or written again. -/
theorem select_setvolume_no_effect (env : Env) (i : Nat) (q : ℚ)
    (cs : List (Option AudioCommand)) (e : Engine) :
    (engineIterate env (some (.select i) :: cs) e).1 =
      (engineIterate env (none :: cs) e).1 ∧
    (engineIterate env (some (.select i) :: cs) e).2.2 =
      (engineIterate env (none :: cs) e).2.2 ∧
    (engineIterate env (some (.select i) :: cs) e).2.1 =
      ⟨.warn, "Unhandled case in audio command loop"⟩ ::
        (engineIterate env (none :: cs) e).2.1 ∧
    (engineIterate env (some (.setVolume q) :: cs) e).1 =
      (engineIterate env (none :: cs) e).1 ∧
    (engineIterate env (some (.setVolume q) :: cs) e).2.2 =
      (engineIterate env (none :: cs) e).2.2 ∧
    (engineIterate env (some (.setVolume q) :: cs) e).2.1 =
      ⟨.warn, "Unhandled case in audio command loop"⟩ ::
        (engineIterate env (none :: cs) e).2.1 ∧
    ∀ cmds, (exitVolume (engineIterate env cmds e).2.2).getD e.volume = e.volume := by
  refine ⟨rfl, rfl, rfl, rfl, rfl, rfl, fun cmds => ?_⟩
  simpa only [engineIterate] using
    engineBranch_volume env (cmds.drop 1)
      (process_audio_cmd (cmds.head?.getD none) e.state).1 e

end MusicPlayer
